import Mathlib

/-!
Verification of the Key-Value Rust client (`src/rust/src/lib.rs`).

The library is a thin HTTP client: every public operation builds a request
(purely, from the client state and the arguments), sends it, and decodes the
response through a shared `handle_response` routine.  We embed exactly that
pure structure:

* `Json` models `serde_json::Value`.  JSON numbers are modelled as integers:
  every number the client ever puts into a request (`ttl`, `version`) is an
  `i32`, and no claim depends on non-integer numerics.
* `chrono::DateTime<Utc>` is modelled as the RFC-3339 string it is decoded
  from; no claim inspects parsed timestamp structure.
* An operation is split into a request builder (`Client.storeRequest`, ...),
  returning `Except Error Request` — an `Error` result models the Rust
  method returning before any network call is made — and a full call
  (`Client.storeCall`, ...) that feeds the built request to a transport
  function `net : Request → HttpResponse` and decodes through
  `handleResponse`.  The call returns the pair of the client after the call
  (the Rust methods take `&self` and perform no mutation) and the result.
* `HttpResponse.body` is `Option Json`: `none` models a body that is not
  well-formed JSON, and each typed decode (`resp.json::<T>()`) is the parse
  stage composed with a `Json → Option T` decoder mirroring the serde
  derive for that struct (missing `Option` fields and JSON `null` decode to
  `none`, unknown fields are ignored, any other mismatch fails).
-/

/-- Model of `serde_json::Value`.  Objects are association lists; the
library only ever tests key membership, never key order (the serde_json map
is a `BTreeMap`, which sorts keys — irrelevant to every claim here). -/
inductive Json where
  | null
  | bool (b : Bool)
  | num (n : Int)
  | str (s : String)
  | arr (elems : List Json)
  | obj (fields : List (String × Json))

/-- Field lookup in a JSON object (`Value::get`); `none` on non-objects. -/
def jsonLookup (j : Json) (key : String) : Option Json :=
  match j with
  | .obj fields => List.lookup key fields
  | _ => none

/-- Does the serialized object carry the key? -/
def jsonHasKey (j : Json) (key : String) : Bool :=
  (jsonLookup j key).isSome

/-- Insert-or-replace of a field, modelling `payload[key] = value` on a
`serde_json` object (`Map::insert`); on a non-object the Rust indexing
would panic, a case the library never reaches. -/
def insertKey : List (String × Json) → String → Json → List (String × Json)
  | [], k, v => [(k, v)]
  | (k₀, v₀) :: rest, k, v =>
      if k₀ = k then (k, v) :: rest else (k₀, v₀) :: insertKey rest k v

/-- Models `payload[key] = value` (`serde_json::Value::index_mut` + assignment). -/
def jsonSet (j : Json) (key : String) (v : Json) : Json :=
  match j with
  | .obj fields => .obj (insertKey fields key v)
  | other => other

/-- The client error enum (`enum Error` in `lib.rs`).  `Request` wraps a
transport / body-decoding failure (`reqwest::Error`), modelled by its
message. -/
inductive Error where
  | Request (message : String)
  | Api (status : Nat) (message : String)
  | MissingToken
  | Validation (message : String)

/-- HTTP methods the client uses. -/
inductive Method where
  | get
  | post
  | delete
  | patch
deriving DecidableEq

/-- A fully built outgoing HTTP request: everything the Rust code decides
before `.send()`. -/
structure Request where
  method : Method
  url : String
  headers : List (String × String)
  body : Option Json

/-- An incoming HTTP response; `body = none` models a body that fails JSON
parsing. -/
structure HttpResponse where
  status : Nat
  body : Option Json

/-- Models `struct Client`: base URL, optional token, and the reusable transport
handle (opaque; modelled by an identifier — no claim depends on its
contents, only on it being left unchanged). -/
structure Client where
  base_url : String
  token : Option String
  http_client : Nat

/-- Models `StatusCode::is_success`: the 2xx range. -/
def statusIsSuccess (status : Nat) : Bool :=
  decide (200 ≤ status ∧ status < 300)

/-- serde decode of the private `ErrorResponse { error: String }`. -/
def decodeErrorResponse (j : Json) : Option String :=
  match jsonLookup j "error" with
  | some (.str s) => some s
  | _ => none

/-- Rendering of a `StatusCode` by `format!`.  The Rust `Display` prints
the numeric code followed by the canonical reason phrase (e.g.
"500 Internal Server Error"); we model the numeric part, the only part any
claim depends on. -/
def statusDisplay (status : Nat) : String :=
  toString status

/-- Models `Client::handle_response`: on 2xx decode the typed payload (a decode
failure is a wrapped `reqwest::Error`); otherwise decode the
`ErrorResponse` body, falling back to `format!("HTTP {}", status)`, and
surface an `Api` error with the status and message. -/
def handleResponse {T : Type} (decode : Json → Option T) (resp : HttpResponse) :
    Except Error T :=
  if statusIsSuccess resp.status then
    match resp.body.bind decode with
    | some payload => .ok payload
    | none => .error (.Request "error decoding response body")
  else
    let message :=
      match resp.body.bind decodeErrorResponse with
      | some m => m
      | none => "HTTP " ++ statusDisplay resp.status
    .error (.Api resp.status message)

/-- Models `struct PatchOperations`; the `HashMap<String, Value>` held by `set` is modelled
as an association list (iteration order of the hash map is unspecified in
Rust; only key membership matters to any claim). -/
structure PatchOperations where
  set : Option (List (String × Json))
  remove : Option (List String)

/-- serde serialization of `PatchOperations`: each field is emitted exactly
when present (`skip_serializing_if = "Option::is_none"`), in declaration
order. -/
def PatchOperations.toJson (p : PatchOperations) : Json :=
  .obj ((match p.set with
         | some m => [("set", Json.obj m)]
         | none => []) ++
        (match p.remove with
         | some r => [("remove", Json.arr (r.map Json.str))]
         | none => []))

/-- Models `struct BatchOperation`. -/
structure BatchOperation where
  action : String
  token : String
  data : Option Json
  ttl : Option Int
  patch : Option PatchOperations
  version : Option Int

/-- serde serialization of `BatchOperation`: `action` and `token` always,
the four optional fields exactly when present, in declaration order. -/
def BatchOperation.toJson (op : BatchOperation) : Json :=
  .obj ([("action", Json.str op.action), ("token", Json.str op.token)] ++
        (match op.data with
         | some d => [("data", d)]
         | none => []) ++
        (match op.ttl with
         | some t => [("ttl", Json.num t)]
         | none => []) ++
        (match op.patch with
         | some p => [("patch", p.toJson)]
         | none => []) ++
        (match op.version with
         | some v => [("version", Json.num v)]
         | none => []))

/-- Models `struct HistoryOptions`. -/
structure HistoryOptions where
  limit : Option Int
  before : Option Int
  since : Option String
  type_filter : Option String

/-- Models `Client::batch` up to `.send()`: local validation, then the request.
An `Error` result models the method returning with no network call
issued. -/
def Client.batchRequest (c : Client) (operations : List BatchOperation) :
    Except Error Request :=
  if operations.isEmpty then
    .error (.Validation "At least one operation required")
  else if operations.length > 100 then
    .error (.Validation "Maximum 100 operations per batch")
  else
    .ok { method := .post
          url := c.base_url ++ "/api/batch"
          headers := []
          body := some (.obj [("operations", .arr (operations.map BatchOperation.toJson))]) }

/-- Models `Client::generate` up to `.send()`: a `HashMap` payload holding the
challenge token when supplied, POSTed with no `X-KV-Token` header.  The
method has no failure path before the network call, so it builds a
`Request` directly. -/
def Client.generateRequest (c : Client) (turnstile_token : Option String) : Request :=
  let payload : Json :=
    match turnstile_token with
    | some t => .obj [("turnstileToken", .str t)]
    | none => .obj []
  { method := .post
    url := c.base_url ++ "/api/generate"
    headers := []
    body := some payload }

/-- The `store` / `patch` pattern `payload["ttl"] = json!(ttl_value)`
applied when the optional TTL is present. -/
def attachTtl (payload : Json) (ttl : Option Int) : Json :=
  match ttl with
  | some ttl_value => jsonSet payload "ttl" (.num ttl_value)
  | none => payload

/-- Models `Client::store` up to `.send()`. -/
def Client.storeRequest (c : Client) (data : Json) (ttl : Option Int) :
    Except Error Request :=
  match c.token with
  | none => .error .MissingToken
  | some tk =>
    .ok { method := .post
          url := c.base_url ++ "/api/store"
          headers := [("X-KV-Token", tk)]
          body := some (attachTtl (.obj [("data", data)]) ttl) }

/-- Models `Client::retrieve` up to `.send()`. -/
def Client.retrieveRequest (c : Client) : Except Error Request :=
  match c.token with
  | none => .error .MissingToken
  | some tk =>
    .ok { method := .get
          url := c.base_url ++ "/api/retrieve"
          headers := [("X-KV-Token", tk)]
          body := none }

/-- Models `Client::delete` up to `.send()`. -/
def Client.deleteRequest (c : Client) : Except Error Request :=
  match c.token with
  | none => .error .MissingToken
  | some tk =>
    .ok { method := .delete
          url := c.base_url ++ "/api/delete"
          headers := [("X-KV-Token", tk)]
          body := none }

/-- Models `Client::patch` up to `.send()`. -/
def Client.patchRequest (c : Client) (version : Int) (patch : PatchOperations)
    (ttl : Option Int) : Except Error Request :=
  match c.token with
  | none => .error .MissingToken
  | some tk =>
    .ok { method := .patch
          url := c.base_url ++ "/api/store"
          headers := [("X-KV-Token", tk)]
          body := some (attachTtl
            (.obj [("version", .num version), ("patch", patch.toJson)]) ttl) }

/-- The URL built by `Client::history`: a `query` vector receives one
rendered parameter per present option, in source order limit, before,
since, type; the joined query is appended after a `?` only when the vector
is non-empty. -/
def Client.historyUrl (c : Client) (options : HistoryOptions) : String :=
  let query : List String :=
    (match options.limit with
     | some limit => ["limit=" ++ toString limit]
     | none => []) ++
    (match options.before with
     | some before => ["before=" ++ toString before]
     | none => []) ++
    (match options.since with
     | some since => ["since=" ++ since]
     | none => []) ++
    (match options.type_filter with
     | some typ => ["type=" ++ typ]
     | none => [])
  if query.isEmpty then
    c.base_url ++ "/api/history"
  else
    c.base_url ++ "/api/history" ++ "?" ++ String.intercalate "&" query

/-- Models `Client::history` up to `.send()`. -/
def Client.historyRequest (c : Client) (options : HistoryOptions) :
    Except Error Request :=
  match c.token with
  | none => .error .MissingToken
  | some tk =>
    .ok { method := .get
          url := c.historyUrl options
          headers := [("X-KV-Token", tk)]
          body := none }

/-- Models `Client::with_base_url` (builder-style setter). -/
def Client.with_base_url (c : Client) (url : String) : Client :=
  { c with base_url := url }

/-- Models `Client::set_token`. -/
def Client.set_token (c : Client) (token : String) : Client :=
  { c with token := some token }

/-- serde decode of a required field. -/
def decField {α : Type} (fields : List (String × Json)) (key : String)
    (d : Json → Option α) : Option α :=
  (List.lookup key fields).bind d

/-- serde decode of an `Option` field: a missing key or JSON `null` is
`none`; an ill-typed present value fails the whole decode. -/
def decOptField {α : Type} (fields : List (String × Json)) (key : String)
    (d : Json → Option α) : Option (Option α) :=
  match List.lookup key fields with
  | none => some none
  | some .null => some none
  | some v => (d v).map some

def decBool : Json → Option Bool
  | .bool b => some b
  | _ => none

def decInt : Json → Option Int
  | .num n => some n
  | _ => none

def decStr : Json → Option String
  | .str s => some s
  | _ => none

/-- serde decode of a JSON array into a list. -/
def decArr {α : Type} (d : Json → Option α) : Json → Option (List α)
  | .arr elems => elems.mapM d
  | _ => none

/-- Models `struct GenerateResponse`. -/
structure GenerateResponse where
  success : Bool
  token : String

def decodeGenerateResponse (j : Json) : Option GenerateResponse :=
  match j with
  | .obj fs => do
    let success ← decField fs "success" decBool
    let token ← decField fs "token" decStr
    some { success := success, token := token }
  | _ => none

/-- Models `struct StoreResponse`; timestamps are the RFC-3339 strings serde/chrono
decodes them from. -/
structure StoreResponse where
  success : Bool
  message : String
  size : Int
  tier : String
  version : Int
  updated_at : String
  expires_at : Option String

def decodeStoreResponse (j : Json) : Option StoreResponse :=
  match j with
  | .obj fs => do
    let success ← decField fs "success" decBool
    let message ← decField fs "message" decStr
    let size ← decField fs "size" decInt
    let tier ← decField fs "tier" decStr
    let version ← decField fs "version" decInt
    let updated_at ← decField fs "updated_at" decStr
    let expires_at ← decOptField fs "expires_at" decStr
    some { success := success, message := message, size := size, tier := tier,
           version := version, updated_at := updated_at, expires_at := expires_at }
  | _ => none

/-- Models `struct RetrieveResponse`. -/
structure RetrieveResponse where
  success : Bool
  data : Json
  version : Int
  updated_at : String
  expires_at : Option String

def decodeRetrieveResponse (j : Json) : Option RetrieveResponse :=
  match j with
  | .obj fs => do
    let success ← decField fs "success" decBool
    let data ← decField fs "data" some
    let version ← decField fs "version" decInt
    let updated_at ← decField fs "updated_at" decStr
    let expires_at ← decOptField fs "expires_at" decStr
    some { success := success, data := data, version := version,
           updated_at := updated_at, expires_at := expires_at }
  | _ => none

/-- Models `struct DeleteResponse`. -/
structure DeleteResponse where
  success : Bool
  message : String

def decodeDeleteResponse (j : Json) : Option DeleteResponse :=
  match j with
  | .obj fs => do
    let success ← decField fs "success" decBool
    let message ← decField fs "message" decStr
    some { success := success, message := message }
  | _ => none

/-- Models `struct PatchResponse`. -/
structure PatchResponse where
  success : Bool
  version : Int
  updated_at : String
  expires_at : Option String
  data : Json
  size : Int
  tier : String

def decodePatchResponse (j : Json) : Option PatchResponse :=
  match j with
  | .obj fs => do
    let success ← decField fs "success" decBool
    let version ← decField fs "version" decInt
    let updated_at ← decField fs "updated_at" decStr
    let expires_at ← decOptField fs "expires_at" decStr
    let data ← decField fs "data" some
    let size ← decField fs "size" decInt
    let tier ← decField fs "tier" decStr
    some { success := success, version := version, updated_at := updated_at,
           expires_at := expires_at, data := data, size := size, tier := tier }
  | _ => none

/-- Models `struct HistoryEvent`; the `f64` fields of the source carry JSON numbers,
modelled as integers like every other number in this embedding (no claim
inspects them). -/
structure HistoryEvent where
  seq : Int
  created_at : String
  expires_at : Option String
  classified_type : Option String
  numeric_value : Option Int
  text_value : Option String
  confidence : Option Int
  payload : Json

def decodeHistoryEvent (j : Json) : Option HistoryEvent :=
  match j with
  | .obj fs => do
    let seq ← decField fs "seq" decInt
    let created_at ← decField fs "created_at" decStr
    let expires_at ← decOptField fs "expires_at" decStr
    let classified_type ← decOptField fs "classified_type" decStr
    let numeric_value ← decOptField fs "numeric_value" decInt
    let text_value ← decOptField fs "text_value" decStr
    let confidence ← decOptField fs "confidence" decInt
    let payload ← decField fs "payload" some
    some { seq := seq, created_at := created_at, expires_at := expires_at,
           classified_type := classified_type, numeric_value := numeric_value,
           text_value := text_value, confidence := confidence, payload := payload }
  | _ => none

/-- Models `struct HistoryPagination`. -/
structure HistoryPagination where
  limit : Int
  before : Option Int
  since : Option String
  has_more : Bool

def decodeHistoryPagination (j : Json) : Option HistoryPagination :=
  match j with
  | .obj fs => do
    let limit ← decField fs "limit" decInt
    let before ← decOptField fs "before" decInt
    let since ← decOptField fs "since" decStr
    let has_more ← decField fs "has_more" decBool
    some { limit := limit, before := before, since := since, has_more := has_more }
  | _ => none

/-- Models `struct HistoryResponse`. -/
structure HistoryResponse where
  success : Bool
  events : List HistoryEvent
  pagination : HistoryPagination

def decodeHistoryResponse (j : Json) : Option HistoryResponse :=
  match j with
  | .obj fs => do
    let success ← decField fs "success" decBool
    let events ← decField fs "events" (decArr decodeHistoryEvent)
    let pagination ← decField fs "pagination" decodeHistoryPagination
    some { success := success, events := events, pagination := pagination }
  | _ => none

/-- Models `struct BatchResult`. -/
structure BatchResult where
  success : Bool
  token : String
  action : String
  data : Option Json
  version : Option Int
  error : Option String

def decodeBatchResult (j : Json) : Option BatchResult :=
  match j with
  | .obj fs => do
    let success ← decField fs "success" decBool
    let token ← decField fs "token" decStr
    let action ← decField fs "action" decStr
    let data ← decOptField fs "data" some
    let version ← decOptField fs "version" decInt
    let error ← decOptField fs "error" decStr
    some { success := success, token := token, action := action,
           data := data, version := version, error := error }
  | _ => none

/-- Models `struct BatchSummary`; `success_rate` is renamed `successRate` on the
wire. -/
structure BatchSummary where
  total : Int
  succeeded : Int
  failed : Int
  success_rate : String

def decodeBatchSummary (j : Json) : Option BatchSummary :=
  match j with
  | .obj fs => do
    let total ← decField fs "total" decInt
    let succeeded ← decField fs "succeeded" decInt
    let failed ← decField fs "failed" decInt
    let success_rate ← decField fs "successRate" decStr
    some { total := total, succeeded := succeeded, failed := failed,
           success_rate := success_rate }
  | _ => none

/-- Models `struct BatchResponse`. -/
structure BatchResponse where
  success : Bool
  results : List BatchResult
  summary : BatchSummary

def decodeBatchResponse (j : Json) : Option BatchResponse :=
  match j with
  | .obj fs => do
    let success ← decField fs "success" decBool
    let results ← decField fs "results" (decArr decodeBatchResult)
    let summary ← decField fs "summary" decodeBatchSummary
    some { success := success, results := results, summary := summary }
  | _ => none

/-- Glue shared by the full calls: run the built request through the
transport and the shared response handler, or propagate the pre-network
error. -/
def runCall {T : Type} (built : Except Error Request)
    (decode : Json → Option T) (net : Request → HttpResponse) : Except Error T :=
  match built with
  | .error e => .error e
  | .ok req => handleResponse decode (net req)

/-- Models `Client::generate`, whole method: `self` is borrowed immutably, so the
call returns the client unchanged next to the result. -/
def Client.generateCall (c : Client) (turnstile_token : Option String)
    (net : Request → HttpResponse) : Client × Except Error GenerateResponse :=
  (c, handleResponse decodeGenerateResponse (net (c.generateRequest turnstile_token)))

/-- Models `Client::store`, whole method. -/
def Client.storeCall (c : Client) (data : Json) (ttl : Option Int)
    (net : Request → HttpResponse) : Client × Except Error StoreResponse :=
  (c, runCall (c.storeRequest data ttl) decodeStoreResponse net)

/-- Models `Client::retrieve`, whole method. -/
def Client.retrieveCall (c : Client) (net : Request → HttpResponse) :
    Client × Except Error RetrieveResponse :=
  (c, runCall c.retrieveRequest decodeRetrieveResponse net)

/-- Models `Client::delete`, whole method. -/
def Client.deleteCall (c : Client) (net : Request → HttpResponse) :
    Client × Except Error DeleteResponse :=
  (c, runCall c.deleteRequest decodeDeleteResponse net)

/-- Models `Client::patch`, whole method. -/
def Client.patchCall (c : Client) (version : Int) (patch : PatchOperations)
    (ttl : Option Int) (net : Request → HttpResponse) :
    Client × Except Error PatchResponse :=
  (c, runCall (c.patchRequest version patch ttl) decodePatchResponse net)

/-- Models `Client::history`, whole method. -/
def Client.historyCall (c : Client) (options : HistoryOptions)
    (net : Request → HttpResponse) : Client × Except Error HistoryResponse :=
  (c, runCall (c.historyRequest options) decodeHistoryResponse net)

/-- Models `Client::batch`, whole method. -/
def Client.batchCall (c : Client) (operations : List BatchOperation)
    (net : Request → HttpResponse) : Client × Except Error BatchResponse :=
  (c, runCall (c.batchRequest operations) decodeBatchResponse net)

/-- A concrete client with a token, for witnesses. -/
def sampleClient : Client :=
  { base_url := "https://key-value.co", token := some "word-word-word-word-word",
    http_client := 0 }

/-- A concrete client without a token, for witnesses. -/
def sampleClientNoToken : Client :=
  { base_url := "https://key-value.co", token := none, http_client := 0 }

/-- A concrete batch operation, for witnesses. -/
def sampleOp : BatchOperation :=
  { action := "store", token := "tok-a", data := some (.num 1), ttl := none,
    patch := none, version := none }

/-- C1: `Client::batch` rejects an empty list and a list longer than 100
with a `Validation` error before any network call (the request is never
built), and for every length from 1 to 100 validation passes and the
request is built to be sent. -/
theorem batch_length_validation (c : Client) (operations : List BatchOperation) :
    (operations.length = 0 →
      c.batchRequest operations = .error (.Validation "At least one operation required")) ∧
    (operations.length > 100 →
      c.batchRequest operations = .error (.Validation "Maximum 100 operations per batch")) ∧
    (1 ≤ operations.length → operations.length ≤ 100 →
      ∃ req, c.batchRequest operations = .ok req) := by
  refine ⟨?_, ?_, ?_⟩
  · intro h
    rcases List.length_eq_zero.mp h with rfl
    rfl
  · intro h
    cases operations with
    | nil => simp at h
    | cons op rest =>
      have h100 : 100 < rest.length + 1 := by simpa using h
      simp [Client.batchRequest, h100]
  · intro h1 h2
    cases operations with
    | nil => simp at h1
    | cons op rest =>
      have hlen : ¬ (100 < rest.length + 1) := by
        simp at h2
        omega
      refine ⟨{ method := .post, url := c.base_url ++ "/api/batch", headers := [],
                body := some (.obj [("operations",
                  .arr ((op :: rest).map BatchOperation.toJson))]) }, ?_⟩
      simp [Client.batchRequest, hlen]

/-- Witness for C1 at lengths 0, 101 and 1. -/
theorem batch_length_validation_witness :
    (sampleClient.batchRequest [] =
      .error (.Validation "At least one operation required")) ∧
    (sampleClient.batchRequest (List.replicate 101 sampleOp) =
      .error (.Validation "Maximum 100 operations per batch")) ∧
    (∃ req, sampleClient.batchRequest [sampleOp] = .ok req) :=
  ⟨(batch_length_validation sampleClient []).1 rfl,
   (batch_length_validation sampleClient (List.replicate 101 sampleOp)).2.1 (by decide),
   (batch_length_validation sampleClient [sampleOp]).2.2 (by decide) (by decide)⟩

/-- C2: on a client whose token is `none`, each of store, retrieve, delete,
patch and history returns `MissingToken` before any request is built, so no
network call is attempted. -/
theorem single_resource_missing_token (c : Client) (h : c.token = none)
    (data : Json) (ttl : Option Int) (version : Int) (patch : PatchOperations)
    (options : HistoryOptions) :
    c.storeRequest data ttl = .error .MissingToken ∧
    c.retrieveRequest = .error .MissingToken ∧
    c.deleteRequest = .error .MissingToken ∧
    c.patchRequest version patch ttl = .error .MissingToken ∧
    c.historyRequest options = .error .MissingToken := by
  simp [Client.storeRequest, Client.retrieveRequest, Client.deleteRequest,
        Client.patchRequest, Client.historyRequest, h]

/-- Witness for C2 on a concrete tokenless client. -/
theorem single_resource_missing_token_witness :
    sampleClientNoToken.storeRequest (.num 1) none = .error .MissingToken ∧
    sampleClientNoToken.retrieveRequest = .error .MissingToken ∧
    sampleClientNoToken.deleteRequest = .error .MissingToken ∧
    sampleClientNoToken.patchRequest 1 ⟨none, none⟩ none = .error .MissingToken ∧
    sampleClientNoToken.historyRequest ⟨none, none, none, none⟩ = .error .MissingToken :=
  single_resource_missing_token sampleClientNoToken rfl (.num 1) none 1
    ⟨none, none⟩ ⟨none, none, none, none⟩

/-- C3: on a non-success status, the shared response handler of every
operation returns an `Api` error carrying that status; the message is the
`error` field of the decoded error body when it decodes, and otherwise a
synthesized message that contains the numeric status (it is
`"HTTP " ++ statusDisplay status`). -/
theorem api_error_status_and_message {T : Type} (decode : Json → Option T)
    (resp : HttpResponse) (h : statusIsSuccess resp.status = false) :
    (∀ m, resp.body.bind decodeErrorResponse = some m →
      handleResponse decode resp = .error (.Api resp.status m)) ∧
    (resp.body.bind decodeErrorResponse = none →
      ∃ m, handleResponse decode resp = .error (.Api resp.status m) ∧
        ∃ pre post, m.data = pre ++ (toString resp.status).data ++ post) := by
  constructor
  · intro m hm
    simp [handleResponse, h, hm]
  · intro hm
    refine ⟨"HTTP " ++ statusDisplay resp.status, ?_, "HTTP ".data, [], ?_⟩
    · simp [handleResponse, h, hm]
    · simp [statusDisplay, String.data_append]

/-- Witness for C3: a decoded `error` body on 404, and a malformed body on
500 whose synthesized message contains "500". -/
theorem api_error_status_and_message_witness :
    (handleResponse decodeStoreResponse
        ⟨404, some (.obj [("error", .str "token not found")])⟩ =
      .error (.Api 404 "token not found")) ∧
    (∃ m, handleResponse decodeStoreResponse ⟨500, none⟩ = .error (.Api 500 m) ∧
      ∃ pre post, m.data = pre ++ (toString 500).data ++ post) :=
  ⟨(api_error_status_and_message decodeStoreResponse
      ⟨404, some (.obj [("error", .str "token not found")])⟩ (by decide)).1
      "token not found" (by decide),
   (api_error_status_and_message decodeStoreResponse ⟨500, none⟩ (by decide)).2 rfl⟩

/-- The response handler can only produce `ok`, a wrapped transport error,
or an `Api` error — never `MissingToken`. -/
theorem handleResponse_never_missingToken {T : Type} (decode : Json → Option T)
    (resp : HttpResponse) : handleResponse decode resp ≠ .error .MissingToken := by
  unfold handleResponse
  split
  · cases resp.body.bind decode <;> simp
  · simp

/-- C4: `Client::generate` never returns `MissingToken` whatever the
client token is, attaches no `X-KV-Token` header, issues a POST, and its
body carries the `turnstileToken` field exactly when a challenge token is
supplied. -/
theorem generate_requires_no_token (c : Client) (ct : Option String)
    (net : Request → HttpResponse) :
    (c.generateCall ct net).2 ≠ .error .MissingToken ∧
    List.lookup "X-KV-Token" (c.generateRequest ct).headers = none ∧
    (c.generateRequest ct).method = .post ∧
    ((c.generateRequest ct).body.bind (jsonLookup · "turnstileToken")) =
      ct.map Json.str := by
  refine ⟨handleResponse_never_missingToken _ _, rfl, rfl, ?_⟩
  cases ct <;> rfl

/-- Modelled from the spec wording for C5: the parameters of a history
query, rendered and listed in the fixed order limit, before, since, type,
each present exactly when the option is present. -/
def HistoryOptions.specParams (o : HistoryOptions) : List String :=
  [o.limit.map (fun l => "limit=" ++ toString l),
   o.before.map (fun b => "before=" ++ toString b),
   o.since.map (fun s => "since=" ++ s),
   o.type_filter.map (fun t => "type=" ++ t)].filterMap id

/-- Modelled from the spec wording for C5: the query string is empty when
no parameter is present, otherwise a `?` followed by the parameters joined
by `&`. -/
def renderQuery : List String → String
  | [] => ""
  | qs => "?" ++ String.intercalate "&" qs

/-- C5: the history URL appends each of limit, before, since, type exactly
when present, in that fixed order, and appends no `?` at all when all four
are absent. -/
theorem history_url_building (c : Client) (o : HistoryOptions) :
    c.historyUrl o = c.base_url ++ "/api/history" ++ renderQuery o.specParams ∧
    (o.limit = none → o.before = none → o.since = none → o.type_filter = none →
      c.historyUrl o = c.base_url ++ "/api/history") := by
  obtain ⟨l, b, s, t⟩ := o
  constructor
  · cases l <;> cases b <;> cases s <;> cases t <;>
      first
        | exact (String.append_empty _).symm
        | exact String.append_assoc _ "?" _
  · intro h1 h2 h3 h4
    simp only at h1 h2 h3 h4
    subst h1 h2 h3 h4
    rfl

/-- Witness for C5: a mixed option set and the all-absent set on a concrete
client. -/
theorem history_url_building_witness :
    (sampleClient.historyUrl ⟨some 5, none, some "2025-01-01", none⟩ =
      sampleClient.base_url ++ "/api/history" ++
        renderQuery (HistoryOptions.specParams ⟨some 5, none, some "2025-01-01", none⟩)) ∧
    sampleClient.historyUrl ⟨none, none, none, none⟩ =
      sampleClient.base_url ++ "/api/history" :=
  ⟨(history_url_building sampleClient ⟨some 5, none, some "2025-01-01", none⟩).1,
   (history_url_building sampleClient ⟨none, none, none, none⟩).2 rfl rfl rfl rfl⟩

/-- C6: for store and patch on a client with a token, the request body
carries the `ttl` key exactly when the optional TTL argument is present
(the value under the key is the supplied TTL; with no TTL, the key is
absent). -/
theorem ttl_key_iff_present (c : Client) (tk : String) (h : c.token = some tk)
    (data : Json) (ttl : Option Int) (version : Int) (patch : PatchOperations) :
    (∃ req, c.storeRequest data ttl = .ok req ∧ ∃ b, req.body = some b ∧
      jsonLookup b "ttl" = ttl.map Json.num) ∧
    (∃ req, c.patchRequest version patch ttl = .ok req ∧ ∃ b, req.body = some b ∧
      jsonLookup b "ttl" = ttl.map Json.num) := by
  have hs : c.storeRequest data ttl = .ok
      { method := .post, url := c.base_url ++ "/api/store",
        headers := [("X-KV-Token", tk)],
        body := some (attachTtl (.obj [("data", data)]) ttl) } := by
    simp [Client.storeRequest, h]
  have hp : c.patchRequest version patch ttl = .ok
      { method := .patch, url := c.base_url ++ "/api/store",
        headers := [("X-KV-Token", tk)],
        body := some (attachTtl
          (.obj [("version", .num version), ("patch", patch.toJson)]) ttl) } := by
    simp [Client.patchRequest, h]
  refine ⟨⟨_, hs, _, rfl, ?_⟩, ⟨_, hp, _, rfl, ?_⟩⟩
  · cases ttl <;> rfl
  · cases ttl <;> rfl

/-- Witness for C6 with a TTL supplied and with none. -/
theorem ttl_key_iff_present_witness :
    ((∃ req, sampleClient.storeRequest (.num 7) (some 60) = .ok req ∧
       ∃ b, req.body = some b ∧ jsonLookup b "ttl" = some (.num 60)) ∧
     (∃ req, sampleClient.patchRequest 2 ⟨none, none⟩ (some 60) = .ok req ∧
       ∃ b, req.body = some b ∧ jsonLookup b "ttl" = some (.num 60))) ∧
    ((∃ req, sampleClient.storeRequest (.num 7) none = .ok req ∧
       ∃ b, req.body = some b ∧ jsonLookup b "ttl" = none) ∧
     (∃ req, sampleClient.patchRequest 2 ⟨none, none⟩ none = .ok req ∧
       ∃ b, req.body = some b ∧ jsonLookup b "ttl" = none)) :=
  ⟨ttl_key_iff_present sampleClient "word-word-word-word-word" rfl (.num 7)
     (some 60) 2 ⟨none, none⟩,
   ttl_key_iff_present sampleClient "word-word-word-word-word" rfl (.num 7)
     none 2 ⟨none, none⟩⟩

/-- C7: a valid batch request carries no `X-KV-Token` header regardless of
the client token, and each serialized operation in the body carries its own
`token` field. -/
theorem batch_per_operation_tokens (c : Client) (operations : List BatchOperation)
    (h1 : 1 ≤ operations.length) (h2 : operations.length ≤ 100) :
    ∃ req, c.batchRequest operations = .ok req ∧
      List.lookup "X-KV-Token" req.headers = none ∧
      req.body = some (.obj [("operations",
        .arr (operations.map BatchOperation.toJson))]) ∧
      ∀ op ∈ operations, jsonLookup op.toJson "token" = some (.str op.token) := by
  cases operations with
  | nil => simp at h1
  | cons op0 rest =>
    have hlen : ¬ (100 < rest.length + 1) := by
      simp at h2
      omega
    refine ⟨{ method := .post, url := c.base_url ++ "/api/batch", headers := [],
              body := some (.obj [("operations",
                .arr ((op0 :: rest).map BatchOperation.toJson))]) }, ?_, rfl, rfl, ?_⟩
    · simp [Client.batchRequest, hlen]
    · intro op _
      rfl

/-- Witness for C7 on a singleton batch from a client that has a token. -/
theorem batch_per_operation_tokens_witness :
    ∃ req, sampleClient.batchRequest [sampleOp] = .ok req ∧
      List.lookup "X-KV-Token" req.headers = none ∧
      req.body = some (.obj [("operations",
        .arr ([sampleOp].map BatchOperation.toJson))]) ∧
      ∀ op ∈ [sampleOp], jsonLookup op.toJson "token" = some (.str op.token) :=
  batch_per_operation_tokens sampleClient [sampleOp] (by decide) (by decide)

/-- C8: the wire form of `PatchOperations` carries the `set` key exactly
when `set` is present and the `remove` key exactly when `remove` is
present, each independently of the other. -/
theorem patch_operations_independent_keys (p : PatchOperations) :
    jsonHasKey p.toJson "set" = p.set.isSome ∧
    jsonHasKey p.toJson "remove" = p.remove.isSome := by
  obtain ⟨s, r⟩ := p
  cases s <;> cases r <;> exact ⟨rfl, rfl⟩

/-- C9: every operation, whatever its outcome, leaves the client state
(base URL, token, transport handle) unchanged; `set_token` and
`with_base_url` are the only state changes, and each touches exactly its
own field. -/
theorem operations_preserve_client_state (c : Client) (ct : Option String)
    (data : Json) (ttl : Option Int) (version : Int) (patch : PatchOperations)
    (options : HistoryOptions) (operations : List BatchOperation)
    (net : Request → HttpResponse) (token : String) (url : String) :
    (c.generateCall ct net).1 = c ∧
    (c.storeCall data ttl net).1 = c ∧
    (c.retrieveCall net).1 = c ∧
    (c.deleteCall net).1 = c ∧
    (c.patchCall version patch ttl net).1 = c ∧
    (c.historyCall options net).1 = c ∧
    (c.batchCall operations net).1 = c ∧
    c.set_token token =
      { base_url := c.base_url, token := some token, http_client := c.http_client } ∧
    c.with_base_url url =
      { base_url := url, token := c.token, http_client := c.http_client } :=
  ⟨rfl, rfl, rfl, rfl, rfl, rfl, rfl, rfl, rfl⟩

/-- C10: on a success status whose body decodes as the expected typed
payload, the shared response handler returns that payload as `ok` without
inspecting its decoded `success` flag — the result is `ok` for every value
of the flag, `false` included. -/
theorem success_flag_not_inspected (resp : HttpResponse) (payload : StoreResponse)
    (h1 : statusIsSuccess resp.status = true)
    (h2 : resp.body.bind decodeStoreResponse = some payload) :
    handleResponse decodeStoreResponse resp = .ok payload := by
  simp [handleResponse, h1, h2]

/-- Witness for C10: a 200 response whose decoded payload carries
`success = false` is still returned as `ok`. -/
theorem success_flag_not_inspected_witness :
    handleResponse decodeStoreResponse
      ⟨200, some (.obj [("success", .bool false), ("message", .str "no"),
        ("size", .num 3), ("tier", .str "free"), ("version", .num 1),
        ("updated_at", .str "2025-01-01T00:00:00Z")])⟩ =
      .ok { success := false, message := "no", size := 3, tier := "free",
            version := 1, updated_at := "2025-01-01T00:00:00Z", expires_at := none } :=
  success_flag_not_inspected
    ⟨200, some (.obj [("success", .bool false), ("message", .str "no"),
      ("size", .num 3), ("tier", .str "free"), ("version", .num 1),
      ("updated_at", .str "2025-01-01T00:00:00Z")])⟩
    { success := false, message := "no", size := 3, tier := "free",
      version := 1, updated_at := "2025-01-01T00:00:00Z", expires_at := none }
    (by decide) rfl
